import Mathlib

/-!
# Verification of the candy-store person/user/staff core

Shallow embedding of `src/keanus_candy/models/person.py`. Python objects
become Lean structures; in-place mutation becomes explicit state passing
(a method that mutates `self` returns the updated record). Machine
integers are `Int` (Python integers are unbounded). Raising an exception
becomes returning `Except`.

The collaborators `ShoppingCart`, `Order`, `Candy` and `PaymentMethod`
live in modules of this repository that are not part of the given source
(`from .shopping import ShoppingCart`); their definitions below are
modelled from the specification's description of their contracts.
-/

namespace CandyStore

/-- Modelled from the spec: the `PaymentMethod` collaborator is an opaque
token "passed through unchanged to the Cart". -/
structure PaymentMethod where
  token : Nat
deriving DecidableEq, Repr

/-- Modelled from the spec: the `Candy` (Item) collaborator "must expose a
mutable `quantity` field"; a display name is kept so that frame conditions
on `quantity`-writes are visible. (`candy.py` is not part of the given
source.) -/
structure Candy where
  cname : String
  quantity : Int
deriving DecidableEq, Repr

/-- Modelled from the spec: the `Order` collaborator, produced by
`ShoppingCart.create_order(payment_method)`; it records the payment method
it was created for and the items sold. (`order`/`shopping` modules are not
part of the given source; `total_amount` is not needed by any claim and is
omitted.) -/
structure Order where
  payment_method : PaymentMethod
  order_items : List (Candy × Int)
deriving DecidableEq, Repr

/-- Modelled from the spec: the Cart collaborator exposes
`add_item(item, quantity)`, `create_order(payment_method) -> Order`
(fails if empty) and `clear()`. `cartId` is the embedding of Python
object identity: each `ShoppingCart(...)` construction yields a fresh
`cartId`, so two carts are "the very same instance" iff their ids agree.
`owner_id` records the owning user passed to the constructor
(`ShoppingCart(self)`). A `ShoppingCart` instance is always truthy in
Python (the spec equips the Cart with no emptiness-coupled truthiness),
so `not self._cart` in the source reads as `self._cart is None`. -/
structure ShoppingCart where
  cartId : Nat
  owner_id : Int
  items : List (Candy × Int)
deriving DecidableEq, Repr

/-- Modelled from the spec: `add_item(item, quantity)` accumulates the
addition in the cart (the positivity of `quantity` is an input constraint
on callers, owned by the Cart collaborator; its effect on valid input is
to record the item). -/
def ShoppingCart.add_item (c : ShoppingCart) (candy : Candy) (quantity : Int) : ShoppingCart :=
  { c with items := c.items ++ [(candy, quantity)] }

/-- Modelled from the spec: `create_order(payment_method) -> Order`
"fails if empty"; on a nonempty cart it materializes an Order for the
given payment method from the accumulated items. -/
def ShoppingCart.create_order (c : ShoppingCart) (pm : PaymentMethod) : Option Order :=
  if c.items.isEmpty then none else some { payment_method := pm, order_items := c.items }

/-- Modelled from the spec: `clear()` resets the cart to an empty state
(same cart instance, no items). -/
def ShoppingCart.clear (c : ShoppingCart) : ShoppingCart :=
  { c with items := [] }

/-- Source `class Person`: identifier, name, email, and the verification flag
(`email_verified`, defaults `False`). -/
structure Person where
  person_id : Int
  name : String
  email : String
  email_verified : Bool
deriving DecidableEq, Repr

/-- Constructor `Person.__init__(person_id, name, email, *, email_verified=False)`. -/
def Person.make (person_id : Int) (name email : String) : Person :=
  { person_id := person_id, name := name, email := email, email_verified := false }

/-- Source `Person.display_info`: `f"{self.name} ({self.email})"`. -/
def Person.display_info (p : Person) : String :=
  p.name ++ " (" ++ p.email ++ ")"

/-- Source `Person.verify_email`: `self.email_verified = True`. -/
def Person.verify_email (p : Person) : Person :=
  { p with email_verified := true }

/-- Source `Person.update_email`: `self.email = new_email; self.email_verified = False`. -/
def Person.update_email (p : Person) (new_email : String) : Person :=
  { p with email := new_email, email_verified := false }

/-- Source `hmac.compare_digest` on strings: functionally, string equality (its
constant-time execution profile is a timing property with no functional
content). -/
def compare_digest (a b : String) : Bool :=
  a == b

/-- Source `class User(Person)`: protected password, order history, optional
cart, active flag and optional deactivation reason. `nextCartId` is the
embedding's allocator for cart object identities: it counts the
`ShoppingCart(self)` constructions this user has performed, and the next
construction uses it as the fresh `cartId`. -/
structure User extends Person where
  _password : String
  _orders : List Order
  _cart : Option ShoppingCart
  is_active : Bool
  deactivated_reason : Option String
  nextCartId : Nat
deriving DecidableEq, Repr

/-- Constructor `User.__init__(user_id, name, email, password, *, is_active=True)`:
`super().__init__` (so `email_verified=False`), empty order history, no
cart, no deactivation reason. -/
def User.make (user_id : Int) (name email password : String) : User :=
  { toPerson := Person.make user_id name email
    _password := password
    _orders := []
    _cart := none
    is_active := true
    deactivated_reason := none
    nextCartId := 0 }

/-- Source `User._ensure_cart`: `if not self._cart: self._cart = ShoppingCart(self)`,
then `return self._cart`. The construction allocates a fresh cart
identity. Returns the cart together with the updated user. -/
def User._ensure_cart (u : User) : ShoppingCart × User :=
  match u._cart with
  | some c => (c, u)
  | none =>
      let c : ShoppingCart := { cartId := u.nextCartId, owner_id := u.person_id, items := [] }
      (c, { u with _cart := some c, nextCartId := u.nextCartId + 1 })

/-- Source `User.login(email, password)`:
`self.is_active and self.email == email and hmac.compare_digest(self._password, password)`. -/
def User.login (u : User) (email password : String) : Bool :=
  u.is_active && u.email == email && compare_digest u._password password

/-- Source `User.change_password(old_password, new_password)`: returns `False`
without mutation unless `hmac.compare_digest(self._password, old_password)`;
otherwise stores the new password and returns `True`. Result is the
returned boolean paired with the post-state. -/
def User.change_password (u : User) (old_password new_password : String) : Bool × User :=
  if ¬ (compare_digest u._password old_password = true) then (false, u)
  else (true, { u with _password := new_password })

/-- Source `User.deactivate(reason=None)`: `self.is_active = False;
self.deactivated_reason = reason`. -/
def User.deactivate (u : User) (reason : Option String) : User :=
  { u with is_active := false, deactivated_reason := reason }

/-- Source `User.add_to_cart(candy, quantity)`: `cart = self._ensure_cart();
cart.add_item(candy, quantity)`. The in-place `add_item` on the cart
object owned by the user shows up as the updated `_cart` field. -/
def User.add_to_cart (u : User) (candy : Candy) (quantity : Int) : User :=
  let (cart, u') := u._ensure_cart
  { u' with _cart := some (cart.add_item candy quantity) }

/-- Errors `User.checkout` can signal: `emptyCart` is the source's
`raise ValueError("Cart is empty")` (no cart ever instantiated);
`orderFailed` is the failure of the Cart collaborator's
`create_order` on an empty cart (a distinct error owned by the Cart). -/
inductive CheckoutError where
  | emptyCart
  | orderFailed
deriving DecidableEq, Repr

/-- Source `User.checkout(payment_method)`: `if not self._cart: raise
ValueError("Cart is empty")`; otherwise `order =
self._cart.create_order(payment_method)`, append `order` to
`self._orders`, `self._cart.clear()`, return `order`. The result pairs
the returned order with the post-state; an exception leaves the state
unchanged (the Python state is untouched before the raise). -/
def User.checkout (u : User) (pm : PaymentMethod) : Except CheckoutError (Order × User) :=
  match u._cart with
  | none => .error .emptyCart
  | some cart =>
      match cart.create_order pm with
      | none => .error .orderFailed
      | some order =>
          .ok (order, { u with _orders := u._orders ++ [order], _cart := some cart.clear })

/-- Source `User.get_orders`: `return self._orders.copy()` — value-level result
(the object-identity content of `.copy()` is modelled separately by
`get_orders_obj`). -/
def User.get_orders (u : User) : List Order :=
  u._orders

/-- Source `User.get_cart`: `return self._cart`. -/
def User.get_cart (u : User) : Option ShoppingCart :=
  u._cart

/-- Source `User.order_count` property: `len(self._orders)`. -/
def User.order_count (u : User) : Nat :=
  u._orders.length

/-- Source `class Staff(User)`: adds a `position` label. -/
structure Staff extends User where
  role_label : String
deriving DecidableEq, Repr

/-- Source `Staff.update_inventory(candy, new_quantity)`: `if new_quantity < 0:
raise ValueError("Quantity cannot be negative")`; otherwise
`candy.quantity = new_quantity`. The write to the collaborator-owned
candy shows up as the returned updated candy. (`self` is not read.) -/
def Staff.update_inventory (_s : Staff) (candy : Candy) (new_quantity : Int) :
    Except String Candy :=
  if new_quantity < 0 then .error "Quantity cannot be negative"
  else .ok { candy with quantity := new_quantity }

/-- Constructor `Staff.__init__(user_id, name, email, password, position)`:
`super().__init__` (so `is_active=True`), then the role label. -/
def Staff.make (user_id : Int) (name email password pos : String) : Staff :=
  { toUser := User.make user_id name email password, role_label := pos }

/-- A public state-mutating call on a `User`, for reasoning about whole
account lifetimes ("ever created", "throughout its lifetime"). Read-only
calls (`login`, `display_info`, `get_orders`, `get_cart`, `order_count`)
do not change state and need no entry. -/
inductive Op where
  | verifyEmail : Op
  | updateEmail : String → Op
  | changePassword : String → String → Op
  | deactivate : Option String → Op
  | addToCart : Candy → Int → Op
  | checkout : PaymentMethod → Op
deriving DecidableEq, Repr

/-- Whether an `Op` is an `add_to_cart` call. -/
def Op.isAddToCart : Op → Bool
  | .addToCart _ _ => true
  | _ => false

/-- State effect of one call on a user. A call that raises (checkout on a
missing cart, or a cart whose `create_order` fails) leaves the state
unchanged, exactly as the exception propagates out of the Python method
before any field is written. -/
def User.runOp (u : User) : Op → User
  | .verifyEmail => { u with toPerson := u.toPerson.verify_email }
  | .updateEmail e => { u with toPerson := u.toPerson.update_email e }
  | .changePassword old new => (u.change_password old new).2
  | .deactivate r => u.deactivate r
  | .addToCart c q => u.add_to_cart c q
  | .checkout pm =>
      match u.checkout pm with
      | .ok (_, u') => u'
      | .error _ => u

/-- State after a sequence of calls. -/
def runOps (u : User) (ops : List Op) : User :=
  ops.foldl User.runOp u

/-- State after a sequence of `add_to_cart(candy, quantity)` calls. -/
def applyAdds (u : User) (adds : List (Candy × Int)) : User :=
  adds.foldl (fun v p => v.add_to_cart p.1 p.2) u

/-! ### Python list objects

`User.get_orders` is `return self._orders.copy()`. Whether the returned
sequence is an alias of the internal one or an independent copy is a fact
about Python object identity, so for that one claim the list objects are
modelled explicitly: a heap maps references (allocation indices) to list
contents, `copy()` allocates a fresh reference holding the same contents,
and an in-place mutation (`append`, `clear`, ...) rewrites the contents
at exactly one reference. -/

/-- Heap of Python list-of-`Order` objects: position `r` of `contents`
holds the contents of the list object with reference `r`. -/
structure PyListHeap where
  contents : List (List Order)
deriving DecidableEq, Repr

/-- Contents of the list object at reference `r`. -/
def PyListHeap.get (h : PyListHeap) (r : Nat) : List Order :=
  h.contents.getD r []

/-- Allocate a new list object with the given contents; returns the fresh
reference and the grown heap. -/
def PyListHeap.alloc (h : PyListHeap) (l : List Order) : Nat × PyListHeap :=
  (h.contents.length, ⟨h.contents ++ [l]⟩)

/-- Overwrite the contents of the list object at reference `r`. -/
def PyListHeap.setObj (h : PyListHeap) (r : Nat) (l : List Order) : PyListHeap :=
  ⟨h.contents.set r l⟩

/-- Source `User.get_orders` at the object level: `self._orders.copy()` reads
the internal list object (at `ref`) and allocates a fresh list object
with the same contents; the internal object is untouched. -/
def get_orders_obj (h : PyListHeap) (ref : Nat) : Nat × PyListHeap :=
  h.alloc (h.get ref)

/-- In-place mutation of the list object at `r` (e.g. `append` is
`f := fun l => l ++ [o]`, `clear` is `f := fun l => []`): only the
contents at `r` change. -/
def mutate_obj (h : PyListHeap) (r : Nat) (f : List Order → List Order) : PyListHeap :=
  h.setObj r (f (h.get r))

end CandyStore

namespace CandyStore

/-! ## Basic lemmas -/

theorem compare_digest_eq_true_iff (a b : String) : compare_digest a b = true ↔ a = b := by
  simp [compare_digest]

/-- Calling `add_to_cart` always leaves a live, nonempty cart. -/
theorem add_to_cart_cart (u : User) (candy : Candy) (q : Int) :
    ∃ c, (u.add_to_cart candy q)._cart = some c ∧ c.items ≠ [] := by
  cases hc : u._cart with
  | none =>
      refine ⟨{ cartId := u.nextCartId, owner_id := u.person_id, items := [(candy, q)] }, ?_, ?_⟩
      · simp [User.add_to_cart, User._ensure_cart, hc, ShoppingCart.add_item]
      · simp
  | some c =>
      refine ⟨c.add_item candy q, ?_, ?_⟩
      · simp [User.add_to_cart, User._ensure_cart, hc]
      · simp [ShoppingCart.add_item]

/-- Calling `add_to_cart` does not touch the order history. -/
theorem add_to_cart_orders (u : User) (candy : Candy) (q : Int) :
    (u.add_to_cart candy q)._orders = u._orders := by
  cases hc : u._cart <;> simp [User.add_to_cart, User._ensure_cart, hc]

/-! ## Claim theorems: authentication and identity record -/

/-- C3: `login` (the spec's `authenticate`) returns `true` iff the account
is active, the supplied email equals the stored email, and the supplied
credential equals the stored credential; being a total `Bool`-valued
function it returns `false` in every other case and never raises. -/
theorem c3_login_iff_active_email_password (u : User) (email password : String) :
    u.login email password = true ↔
      (u.is_active = true ∧ u.email = email ∧ u._password = password) := by
  simp [User.login, compare_digest, and_assoc]

/-- C5: `update_email` leaves the verified flag `false` afterwards,
unconditionally — for every prior state (verified or not) and every new
email (equal to the stored one or not). -/
theorem c5_update_email_resets_verified (p : Person) (new_email : String) :
    (p.update_email new_email).email_verified = false :=
  rfl

/-- C7: `change_password` (the spec's `change_credential`) returns `false`
and leaves the whole account state unchanged when the old credential does
not match the stored one; on a match it replaces only the stored
credential and returns `true`. -/
theorem c7_change_password_cases (u : User) (old_pw new_pw : String) :
    u.change_password old_pw new_pw =
      if u._password = old_pw then (true, { u with _password := new_pw })
      else (false, u) := by
  by_cases hp : u._password = old_pw <;> simp [User.change_password, compare_digest, hp]

/-- C9: `update_inventory` fails with the invalid-quantity error iff the
new quantity is negative, and otherwise sets exactly the item's quantity
field to the new quantity. -/
theorem c9_update_inventory_cases (s : Staff) (candy : Candy) (new_quantity : Int) :
    ((∃ msg, s.update_inventory candy new_quantity = .error msg) ↔ new_quantity < 0) ∧
    (new_quantity < 0 →
      s.update_inventory candy new_quantity = .error "Quantity cannot be negative") ∧
    (0 ≤ new_quantity →
      s.update_inventory candy new_quantity = .ok { candy with quantity := new_quantity }) := by
  by_cases hq : new_quantity < 0
  · simp [Staff.update_inventory, hq]
  · simp [Staff.update_inventory, hq]

/-- C9 witness: on a concrete staff member and item, quantity `-1` is
rejected with the invalid-quantity error and quantity `0` is accepted,
leaving the item's quantity equal to `0`. -/
theorem c9_update_inventory_cases_witness :
    ((Staff.make 1 "st" "st@x.com" "pw" "manager").update_inventory
        { cname := "gum", quantity := 5 } (-1) = .error "Quantity cannot be negative") ∧
    ((Staff.make 1 "st" "st@x.com" "pw" "manager").update_inventory
        { cname := "gum", quantity := 5 } 0 =
      .ok { cname := "gum", quantity := 0 }) := by
  refine ⟨(c9_update_inventory_cases (Staff.make 1 "st" "st@x.com" "pw" "manager")
      { cname := "gum", quantity := 5 } (-1)).2.1 (by decide), ?_⟩
  exact (c9_update_inventory_cases (Staff.make 1 "st" "st@x.com" "pw" "manager")
      { cname := "gum", quantity := 5 } 0).2.2 (by decide)

/-- C6: deactivation gates authentication only. `add_to_cart` commutes
with `deactivate`, and `checkout` on a deactivated account gives exactly
the result of `checkout` on the active account with the post-state
deactivated: same success/failure condition, same error, same returned
order, same cart and order-history effects. Neither operation reads
`is_active` or `deactivated_reason`. -/
theorem c6_deactivation_gates_login_only (u : User) (r : Option String)
    (candy : Candy) (q : Int) (pm : PaymentMethod) :
    ((u.deactivate r).add_to_cart candy q = (u.add_to_cart candy q).deactivate r) ∧
    ((u.deactivate r).checkout pm =
      (u.checkout pm).map (fun p => (p.1, p.2.deactivate r))) := by
  constructor
  · cases hc : u._cart <;>
      simp [User.deactivate, User.add_to_cart, User._ensure_cart, hc]
  · cases hc : u._cart with
    | none => simp [User.deactivate, User.checkout, hc, Except.map]
    | some cart =>
        cases ho : cart.create_order pm <;>
          simp [User.deactivate, User.checkout, hc, ho, Except.map]

/-- C10: credential change round-trips with authentication. If the
account is active and `change_password old new` reported success, then
logging in with the stored email and the new credential succeeds, while
logging in with any credential different from the new one fails. -/
theorem c10_change_password_login_roundtrip (u : User) (old_pw new_pw other : String)
    (hact : u.is_active = true)
    (hok : (u.change_password old_pw new_pw).1 = true)
    (hother : other ≠ new_pw) :
    ((u.change_password old_pw new_pw).2.login u.email new_pw = true) ∧
    ((u.change_password old_pw new_pw).2.login u.email other = false) := by
  by_cases hp : u._password = old_pw
  · constructor
    · simp [User.change_password, compare_digest, hp, User.login, hact]
    · simp [User.change_password, compare_digest, hp, User.login, hact, Ne.symm hother]
  · simp [User.change_password, compare_digest, hp] at hok

/-- C10 witness: concrete round-trip — after changing credential `pw` to
`nw` on an active account, login with `nw` succeeds and login with `zz`
fails. -/
theorem c10_change_password_login_roundtrip_witness :
    (((User.make 1 "n" "a@x.com" "pw").change_password "pw" "nw").2.login
        (User.make 1 "n" "a@x.com" "pw").email "nw" = true) ∧
    (((User.make 1 "n" "a@x.com" "pw").change_password "pw" "nw").2.login
        (User.make 1 "n" "a@x.com" "pw").email "zz" = false) :=
  c10_change_password_login_roundtrip (User.make 1 "n" "a@x.com" "pw") "pw" "nw" "zz"
    rfl (by decide) (by decide)

/-- A sequence of `add_to_cart` calls does not touch the order history. -/
theorem applyAdds_orders (adds : List (Candy × Int)) :
    ∀ u : User, (applyAdds u adds)._orders = u._orders := by
  induction adds with
  | nil => intro u; rfl
  | cons p rest ih =>
      intro u
      calc (applyAdds (u.add_to_cart p.1 p.2) rest)._orders
          = (u.add_to_cart p.1 p.2)._orders := ih _
        _ = u._orders := add_to_cart_orders u p.1 p.2

/-- After a nonempty sequence of `add_to_cart` calls the user has a live,
nonempty cart. -/
theorem applyAdds_cart (adds : List (Candy × Int)) :
    ∀ u : User, adds ≠ [] →
      ∃ c, (applyAdds u adds)._cart = some c ∧ c.items ≠ [] := by
  induction adds with
  | nil => intro u h; exact absurd rfl h
  | cons p rest ih =>
      intro u _
      cases rest with
      | nil => exact add_to_cart_cart u p.1 p.2
      | cons q rs => exact ih (u.add_to_cart p.1 p.2) (by simp)

/-- C2: on any account, after at least one `add_to_cart` call, `checkout`
succeeds, and afterwards (a) the order history is longer by exactly one
(both against the state at checkout time and against the state before the
adds), (b) the cart is empty, (c) the returned order is the one appended
to the history and carries the payment method that was passed in. -/
theorem c2_checkout_after_add_succeeds (u : User) (adds : List (Candy × Int))
    (pm : PaymentMethod) (h : adds ≠ []) :
    ∃ order u',
      (applyAdds u adds).checkout pm = .ok (order, u') ∧
      u'._orders.length = (applyAdds u adds)._orders.length + 1 ∧
      u'._orders.length = u._orders.length + 1 ∧
      (∃ c, u'._cart = some c ∧ c.items = []) ∧
      u'._orders = (applyAdds u adds)._orders ++ [order] ∧
      order.payment_method = pm := by
  obtain ⟨c, hc, hne⟩ := applyAdds_cart adds u h
  have ho : c.create_order pm = some { payment_method := pm, order_items := c.items } := by
    simp [ShoppingCart.create_order, hne]
  refine ⟨{ payment_method := pm, order_items := c.items },
    { applyAdds u adds with
        _orders := (applyAdds u adds)._orders ++ [{ payment_method := pm, order_items := c.items }]
        _cart := some c.clear },
    ?_, by simp, ?_, ⟨c.clear, rfl, rfl⟩, rfl, rfl⟩
  · simp [User.checkout, hc, ho]
  · simp [applyAdds_orders]

/-- C2 witness: a fresh account that adds one candy and checks out with a
concrete payment method obtains exactly the behavior of the claim. -/
theorem c2_checkout_after_add_succeeds_witness :
    ∃ order u',
      (applyAdds (User.make 2 "b" "b@x.com" "pw")
          [({ cname := "cola", quantity := 5 }, 2)]).checkout { token := 1 } =
        .ok (order, u') ∧
      u'._orders.length =
        (applyAdds (User.make 2 "b" "b@x.com" "pw")
          [({ cname := "cola", quantity := 5 }, 2)])._orders.length + 1 ∧
      u'._orders.length = (User.make 2 "b" "b@x.com" "pw")._orders.length + 1 ∧
      (∃ c, u'._cart = some c ∧ c.items = []) ∧
      u'._orders =
        (applyAdds (User.make 2 "b" "b@x.com" "pw")
          [({ cname := "cola", quantity := 5 }, 2)])._orders ++ [order] ∧
      order.payment_method = { token := 1 } :=
  c2_checkout_after_add_succeeds (User.make 2 "b" "b@x.com" "pw")
    [({ cname := "cola", quantity := 5 }, 2)] { token := 1 } (by simp)

/-- Method `checkout` signals the user-level empty-cart error (the source's
`raise ValueError("Cart is empty")`) exactly when no cart object exists;
a live but emptied cart leads past that check (any failure there is the
cart collaborator's own, distinct error). -/
theorem checkout_emptyCart_iff (u : User) (pm : PaymentMethod) :
    u.checkout pm = .error .emptyCart ↔ u._cart = none := by
  cases hc : u._cart with
  | none => simp [User.checkout, hc]
  | some cart =>
      cases ho : cart.create_order pm <;> simp [User.checkout, hc, ho]

/-- Any call other than `add_to_cart` preserves cart-absence in both
directions: it neither creates nor discards the cart object. -/
theorem runOp_cart_none (u : User) (op : Op) (h : op.isAddToCart = false) :
    (u.runOp op)._cart = none ↔ u._cart = none := by
  cases op with
  | verifyEmail => simp [User.runOp]
  | updateEmail e => simp [User.runOp]
  | changePassword old_pw new_pw =>
      by_cases hp : compare_digest u._password old_pw = true <;>
        simp [User.runOp, User.change_password, hp]
  | deactivate r => simp [User.runOp, User.deactivate]
  | addToCart c q => simp [Op.isAddToCart] at h
  | checkout pm =>
      cases hc : u._cart with
      | none => simp [User.runOp, User.checkout, hc]
      | some cart =>
          cases ho : cart.create_order pm <;>
            simp [User.runOp, User.checkout, hc, ho]

/-- After an `add_to_cart` call a cart object exists. -/
theorem runOp_addToCart_cart (u : User) (c : Candy) (q : Int) :
    (u.runOp (.addToCart c q))._cart ≠ none := by
  obtain ⟨cc, hcc, -⟩ := add_to_cart_cart u c q
  simp [User.runOp, hcc]

/-- Over a whole call sequence, cart-absence holds at the end iff it held
at the start and no `add_to_cart` occurred. -/
theorem runOps_cart_none (ops : List Op) :
    ∀ u : User,
      ((runOps u ops)._cart = none ↔
        (u._cart = none ∧ ∀ op ∈ ops, op.isAddToCart = false)) := by
  induction ops with
  | nil => intro u; simp [runOps]
  | cons op rest ih =>
      intro u
      have hstep : runOps u (op :: rest) = runOps (u.runOp op) rest := rfl
      rw [hstep, ih]
      by_cases hadd : op.isAddToCart = true
      · cases op with
        | addToCart c q =>
            constructor
            · rintro ⟨hnone, -⟩
              exact absurd hnone (runOp_addToCart_cart u c q)
            · rintro ⟨-, hall⟩
              have := hall (.addToCart c q) (by simp)
              simp [Op.isAddToCart] at this
        | verifyEmail => simp [Op.isAddToCart] at hadd
        | updateEmail e => simp [Op.isAddToCart] at hadd
        | changePassword a b => simp [Op.isAddToCart] at hadd
        | deactivate r => simp [Op.isAddToCart] at hadd
        | checkout pm => simp [Op.isAddToCart] at hadd
      · rw [runOp_cart_none u op (by simpa using hadd)]
        constructor
        · rintro ⟨hnone, hall⟩
          refine ⟨hnone, ?_⟩
          intro op' hmem
          rcases List.mem_cons.mp hmem with rfl | hmem'
          · simpa using hadd
          · exact hall op' hmem'
        · rintro ⟨hnone, hall⟩
          exact ⟨hnone, fun op' hmem' => hall op' (List.mem_cons_of_mem _ hmem')⟩

/-- C1: starting from a fresh account, `checkout` fails with the
empty-cart error exactly when no `add_to_cart` call has ever occurred;
in particular, once any `add_to_cart` has happened — even if the cart was
since cleared by a checkout — the empty-cart error can no longer arise. -/
theorem c1_emptyCart_iff_never_added (uid : Int) (nm em pw : String)
    (ops : List Op) (pm : PaymentMethod) :
    (runOps (User.make uid nm em pw) ops).checkout pm = .error .emptyCart ↔
      ∀ op ∈ ops, op.isAddToCart = false := by
  rw [checkout_emptyCart_iff, runOps_cart_none]
  simp [User.make]

/-- Lifetime cart-allocation invariant: either no cart was ever
constructed (`nextCartId = 0`, no live cart), or exactly one was — the
one with identity `0` — and it is still the live cart. -/
def cartIdInv (u : User) : Prop :=
  (u._cart = none ∧ u.nextCartId = 0) ∨
  (∃ c, u._cart = some c ∧ c.cartId = 0 ∧ u.nextCartId = 1)

/-- Every call preserves the cart-allocation invariant: only
`_ensure_cart` constructs a cart, and it does so only when none exists. -/
theorem runOp_cartIdInv (u : User) (op : Op) (h : cartIdInv u) :
    cartIdInv (u.runOp op) := by
  cases op with
  | verifyEmail =>
      rcases h with ⟨hc, hn⟩ | ⟨c, hc, hid, hn⟩
      · exact Or.inl ⟨by simpa [User.runOp] using hc, by simpa [User.runOp] using hn⟩
      · exact Or.inr ⟨c, by simpa [User.runOp] using hc, hid, by simpa [User.runOp] using hn⟩
  | updateEmail e =>
      rcases h with ⟨hc, hn⟩ | ⟨c, hc, hid, hn⟩
      · exact Or.inl ⟨by simpa [User.runOp] using hc, by simpa [User.runOp] using hn⟩
      · exact Or.inr ⟨c, by simpa [User.runOp] using hc, hid, by simpa [User.runOp] using hn⟩
  | changePassword old_pw new_pw =>
      by_cases hp : compare_digest u._password old_pw = true <;>
      · rcases h with ⟨hc, hn⟩ | ⟨c, hc, hid, hn⟩
        · exact Or.inl ⟨by simpa [User.runOp, User.change_password, hp] using hc,
            by simpa [User.runOp, User.change_password, hp] using hn⟩
        · exact Or.inr ⟨c, by simpa [User.runOp, User.change_password, hp] using hc, hid,
            by simpa [User.runOp, User.change_password, hp] using hn⟩
  | deactivate r =>
      rcases h with ⟨hc, hn⟩ | ⟨c, hc, hid, hn⟩
      · exact Or.inl ⟨by simpa [User.runOp, User.deactivate] using hc,
          by simpa [User.runOp, User.deactivate] using hn⟩
      · exact Or.inr ⟨c, by simpa [User.runOp, User.deactivate] using hc, hid,
          by simpa [User.runOp, User.deactivate] using hn⟩
  | addToCart cd q =>
      rcases h with ⟨hc, hn⟩ | ⟨c, hc, hid, hn⟩
      · have hres : (u.runOp (.addToCart cd q))._cart =
            some { cartId := u.nextCartId, owner_id := u.person_id, items := [(cd, q)] } := by
          simp [User.runOp, User.add_to_cart, User._ensure_cart, hc, ShoppingCart.add_item]
        refine Or.inr ⟨_, hres, by simpa using hn, ?_⟩
        simp [User.runOp, User.add_to_cart, User._ensure_cart, hc, hn]
      · refine Or.inr ⟨c.add_item cd q, ?_, ?_, ?_⟩
        · simp [User.runOp, User.add_to_cart, User._ensure_cart, hc]
        · simpa [ShoppingCart.add_item] using hid
        · simpa [User.runOp, User.add_to_cart, User._ensure_cart, hc] using hn
  | checkout pm =>
      rcases h with ⟨hc, hn⟩ | ⟨c, hc, hid, hn⟩
      · exact Or.inl ⟨by simp [User.runOp, User.checkout, hc],
          by simpa [User.runOp, User.checkout, hc] using hn⟩
      · cases ho : c.create_order pm with
        | none =>
            exact Or.inr ⟨c, by simp [User.runOp, User.checkout, hc, ho], hid,
              by simpa [User.runOp, User.checkout, hc, ho] using hn⟩
        | some o =>
            refine Or.inr ⟨c.clear, ?_, by simpa [ShoppingCart.clear] using hid,
              by simpa [User.runOp, User.checkout, hc, ho] using hn⟩
            simp [User.runOp, User.checkout, hc, ho]

/-- The cart-allocation invariant is preserved by whole call sequences. -/
theorem runOps_cartIdInv (ops : List Op) :
    ∀ u : User, cartIdInv u → cartIdInv (runOps u ops) := by
  induction ops with
  | nil => intro u h; exact h
  | cons op rest ih => intro u h; exact ih (u.runOp op) (runOp_cartIdInv u op h)

/-- C4: lazy cart creation is identity-stable. In any reachable state of
a fresh account that has a live cart, that cart is the very first one
constructed (identity `0`) and exactly one cart was ever constructed
(`nextCartId = 1`): every later `add_to_cart` reused the first call's
cart, and the account held at most one cart throughout its lifetime. -/
theorem c4_cart_identity_stable (uid : Int) (nm em pw : String) (ops : List Op)
    (c : ShoppingCart)
    (h : (runOps (User.make uid nm em pw) ops)._cart = some c) :
    c.cartId = 0 ∧ (runOps (User.make uid nm em pw) ops).nextCartId = 1 := by
  have hinv := runOps_cartIdInv ops (User.make uid nm em pw) (Or.inl ⟨rfl, rfl⟩)
  rcases hinv with ⟨hc, -⟩ | ⟨c', hc, hid, hn⟩
  · rw [h] at hc; exact absurd hc (by simp)
  · rw [h] at hc
    obtain rfl : c = c' := by injection hc
    exact ⟨hid, hn⟩

/-- C4 witness: two consecutive `add_to_cart` calls on a fresh account
leave the live cart with identity `0` and a total of one cart ever
constructed. -/
theorem c4_cart_identity_stable_witness :
    ({ cartId := 0, owner_id := 7,
        items := [({ cname := "gum", quantity := 3 }, 1),
                  ({ cname := "gum", quantity := 3 }, 2)] } : ShoppingCart).cartId = 0 ∧
    (runOps (User.make 7 "kc" "a@x.com" "pw")
        [.addToCart { cname := "gum", quantity := 3 } 1,
         .addToCart { cname := "gum", quantity := 3 } 2]).nextCartId = 1 :=
  c4_cart_identity_stable 7 "kc" "a@x.com" "pw"
    [.addToCart { cname := "gum", quantity := 3 } 1,
     .addToCart { cname := "gum", quantity := 3 } 2]
    { cartId := 0, owner_id := 7,
      items := [({ cname := "gum", quantity := 3 }, 1),
                ({ cname := "gum", quantity := 3 }, 2)] }
    rfl

/-- A freshly allocated list object holds exactly the requested contents. -/
theorem PyListHeap.get_alloc_fresh (h : PyListHeap) (l : List Order) :
    (h.alloc l).2.get (h.alloc l).1 = l := by
  simp [PyListHeap.alloc, PyListHeap.get, List.getD_eq_getElem?_getD,
    List.getElem?_concat_length]

/-- Allocation leaves every existing list object unchanged. -/
theorem PyListHeap.get_alloc_old (h : PyListHeap) (l : List Order) (r : Nat)
    (hr : r < h.contents.length) :
    (h.alloc l).2.get r = h.get r := by
  simp [PyListHeap.alloc, PyListHeap.get, List.getD_eq_getElem?_getD,
    List.getElem?_append_left hr]

/-- Overwriting one list object leaves every other list object unchanged. -/
theorem PyListHeap.get_setObj_ne (h : PyListHeap) (r r' : Nat) (l : List Order)
    (hne : r' ≠ r) :
    (h.setObj r' l).get r = h.get r := by
  simp [PyListHeap.setObj, PyListHeap.get, List.getD_eq_getElem?_getD,
    List.getElem?_set_ne hne]

/-- C8: `get_orders` returns an independent, order-preserving copy of the
order history. At the value level the result equals `_orders`; at the
object level the copy is a fresh object (reference distinct from the
internal one) with equal contents, and after any in-place mutation of the
copy the internal history is unchanged and a subsequent `get_orders`
still returns the original history. -/
theorem c8_get_orders_independent_copy (u : User) (h : PyListHeap) (ref : Nat)
    (f : List Order → List Order)
    (href : ref < h.contents.length) (hcontent : h.get ref = u._orders) :
    u.get_orders = u._orders ∧
    (get_orders_obj h ref).1 ≠ ref ∧
    (get_orders_obj h ref).2.get (get_orders_obj h ref).1 = u.get_orders ∧
    (mutate_obj (get_orders_obj h ref).2 (get_orders_obj h ref).1 f).get ref = u._orders ∧
    (get_orders_obj (mutate_obj (get_orders_obj h ref).2 (get_orders_obj h ref).1 f) ref).2.get
        (get_orders_obj (mutate_obj (get_orders_obj h ref).2 (get_orders_obj h ref).1 f) ref).1
      = u.get_orders := by
  have hfresh : (get_orders_obj h ref).1 = h.contents.length := rfl
  have hne : (get_orders_obj h ref).1 ≠ ref := by
    rw [hfresh]; exact (Nat.ne_of_lt href).symm
  have hcopy : (get_orders_obj h ref).2.get (get_orders_obj h ref).1 = u.get_orders := by
    rw [show (get_orders_obj h ref).2.get (get_orders_obj h ref).1 = h.get ref from
      PyListHeap.get_alloc_fresh h (h.get ref), hcontent]
    rfl
  have hmut : (mutate_obj (get_orders_obj h ref).2 (get_orders_obj h ref).1 f).get ref
      = u._orders := by
    rw [mutate_obj, PyListHeap.get_setObj_ne _ _ _ _ hne,
      show (get_orders_obj h ref).2.get ref = h.get ref from
        PyListHeap.get_alloc_old h (h.get ref) ref href, hcontent]
  refine ⟨rfl, hne, hcopy, hmut, ?_⟩
  have hunfold : get_orders_obj (mutate_obj (get_orders_obj h ref).2 (get_orders_obj h ref).1 f) ref
      = (mutate_obj (get_orders_obj h ref).2 (get_orders_obj h ref).1 f).alloc
          ((mutate_obj (get_orders_obj h ref).2 (get_orders_obj h ref).1 f).get ref) := rfl
  rw [hunfold, PyListHeap.get_alloc_fresh, hmut]
  rfl

/-- C8 witness: a concrete account with one recorded order; the copy is a
fresh object with the same single order, appending another order to the
copy leaves the internal history and the next `get_orders` unchanged. -/
theorem c8_get_orders_independent_copy_witness :
    ({ User.make 4 "d" "d@x.com" "pw" with
        _orders := [{ payment_method := { token := 0 }, order_items := [] }] } : User).get_orders
        = ({ User.make 4 "d" "d@x.com" "pw" with
            _orders := [{ payment_method := { token := 0 }, order_items := [] }] } : User)._orders ∧
    (get_orders_obj { contents := [[{ payment_method := { token := 0 }, order_items := [] }]] }
        0).1 ≠ 0 ∧
    (get_orders_obj { contents := [[{ payment_method := { token := 0 }, order_items := [] }]] }
          0).2.get
        (get_orders_obj { contents := [[{ payment_method := { token := 0 }, order_items := [] }]] }
          0).1
      = ({ User.make 4 "d" "d@x.com" "pw" with
          _orders := [{ payment_method := { token := 0 }, order_items := [] }] } : User).get_orders ∧
    (mutate_obj
        (get_orders_obj { contents := [[{ payment_method := { token := 0 }, order_items := [] }]] }
          0).2
        (get_orders_obj { contents := [[{ payment_method := { token := 0 }, order_items := [] }]] }
          0).1
        (fun l => l ++ [{ payment_method := { token := 9 }, order_items := [] }])).get 0
      = ({ User.make 4 "d" "d@x.com" "pw" with
          _orders := [{ payment_method := { token := 0 }, order_items := [] }] } : User)._orders ∧
    (get_orders_obj
        (mutate_obj
          (get_orders_obj
            { contents := [[{ payment_method := { token := 0 }, order_items := [] }]] } 0).2
          (get_orders_obj
            { contents := [[{ payment_method := { token := 0 }, order_items := [] }]] } 0).1
          (fun l => l ++ [{ payment_method := { token := 9 }, order_items := [] }])) 0).2.get
        (get_orders_obj
          (mutate_obj
            (get_orders_obj
              { contents := [[{ payment_method := { token := 0 }, order_items := [] }]] } 0).2
            (get_orders_obj
              { contents := [[{ payment_method := { token := 0 }, order_items := [] }]] } 0).1
            (fun l => l ++ [{ payment_method := { token := 9 }, order_items := [] }])) 0).1
      = ({ User.make 4 "d" "d@x.com" "pw" with
          _orders := [{ payment_method := { token := 0 }, order_items := [] }] } : User).get_orders :=
  c8_get_orders_independent_copy
    { User.make 4 "d" "d@x.com" "pw" with
        _orders := [{ payment_method := { token := 0 }, order_items := [] }] }
    { contents := [[{ payment_method := { token := 0 }, order_items := [] }]] } 0
    (fun l => l ++ [{ payment_method := { token := 9 }, order_items := [] }])
    (by decide) rfl

end CandyStore
